import Mathlib

/-!
Verification of the queue middleware (`swift/common/middleware/queue.py`).

The middleware implements a message queue on top of an object store.  We give a
shallow embedding of the middleware: the backing WSGI application (`self.app`)
is a parameter of type `App σ` (a state-passing request handler), mirroring how
the middleware only talks to the store through sub-requests.  Machine-level
details (WSGI environs, JSON wire encoding) are modelled by structured values:
a response body is a `Body`, carrying exactly the structured data the handlers
read out of the JSON bodies in the source.

Python exceptions are modelled with `Except PyErr`: the middleware source both
raises deliberately (`raise resp` in `is_deleted`, `raise Exception(...)` in
`list_container`) and crashes accidentally (`self.increment` does not exist,
`resp.status` is read off `None`, a dict is used where a string is expected,
`self.prefix + queue` with `queue = None`).  Each such point is embedded as an
explicit `PyErr` value, with a comment naming the source line it comes from.
-/

/-! ## Identifier generator (`SortableUid`, queue.py lines 8-24)

Python formats identifiers with `UID_FORMAT = '%010x%s%03x'`: a 10-hex-digit
zero-padded timestamp in milliseconds, the 3-hex-char instance tag, and a
3-hex-digit zero-padded counter.  `pctHex w n` embeds the `'%0wx' % n`
conversion: the full lowercase hex digits of `n`, left-padded with `'0'` to
width `w` (never truncated).
-/

/-- Hex digit characters as produced by Python's `%x` conversion (lowercase). -/
def hexDigitChar (n : Nat) : Char :=
  match n with
  | 0 => '0' | 1 => '1' | 2 => '2' | 3 => '3'
  | 4 => '4' | 5 => '5' | 6 => '6' | 7 => '7'
  | 8 => '8' | 9 => '9' | 10 => 'a' | 11 => 'b'
  | 12 => 'c' | 13 => 'd' | 14 => 'e' | 15 => 'f'
  | _ => '*'

/-- Numeric value of a hex digit character (partial inverse of `hexDigitChar`). -/
def hexVal (c : Char) : Nat :=
  match c with
  | '0' => 0 | '1' => 1 | '2' => 2 | '3' => 3
  | '4' => 4 | '5' => 5 | '6' => 6 | '7' => 7
  | '8' => 8 | '9' => 9 | 'a' => 10 | 'b' => 11
  | 'c' => 12 | 'd' => 13 | 'e' => 14 | 'f' => 15
  | _ => 0

/-- Big-endian hex digits of `n`, with explicit fuel (the recursion divides by
16 each step, so fuel `n + 1` always suffices). -/
def hexDigitsAux : Nat → Nat → List Char
  | 0, _ => []
  | fuel + 1, n =>
    if n < 16 then [hexDigitChar n]
    else hexDigitsAux fuel (n / 16) ++ [hexDigitChar (n % 16)]

/-- Hex digits of `n`, as produced by Python's `'%x' % n` (e.g. `0 ↦ "0"`). -/
def hexDigits (n : Nat) : List Char := hexDigitsAux (n + 1) n

/-- Embedding of Python's `'%0wx' % n`: hex digits of `n` zero-padded on the
left to width `w`.  Like the Python conversion it never truncates: for
`n ≥ 16 ^ w` the result is longer than `w`. -/
def pctHex (w n : Nat) : String :=
  ⟨List.replicate (w - (hexDigits n).length) '0' ++ hexDigits n⟩

/-- Constant `COUNTER_DIGITS` (queue.py line 8). -/
def COUNTER_DIGITS : Nat := 3

/-- Constant `ID_DIGITS` (queue.py line 9). -/
def ID_DIGITS : Nat := 3

/-- Constant `TIME_DIGITS` (queue.py line 10). -/
def TIME_DIGITS : Nat := 10

/-- Constant `COUNTER_LIMIT = 1 << (COUNTER_DIGITS * 4)` (queue.py line 12). -/
def COUNTER_LIMIT : Nat := 1 <<< (COUNTER_DIGITS * 4)

/-- State of a `SortableUid` generator instance (queue.py lines 16-24): the
random 3-hex-char instance tag chosen at construction and the wrapping
counter. -/
structure SortableUid where
  _id : String
  _counter : Nat
deriving DecidableEq, Repr

/-- Embedding of `SortableUid.get` (queue.py lines 22-24).  Python reads the
wall clock (`time.time() * 1000`); here the millisecond timestamp is an
explicit argument.  The counter is incremented modulo `COUNTER_LIMIT` before
use, and the identifier is `UID_FORMAT % (timeMs, self._id, self._counter)`.
Returns the identifier together with the updated generator state. -/
def SortableUid.get (u : SortableUid) (timeMs : Nat) : String × SortableUid :=
  let c := (u._counter + 1) % COUNTER_LIMIT
  (pctHex TIME_DIGITS timeMs ++ u._id ++ pctHex COUNTER_DIGITS c, ⟨u._id, c⟩)

/-! ## Requests, responses and the backing application

The middleware issues sub-requests to the wrapped WSGI application.  A request
path is always built by `'/%s/%s/%s' % (...)`-style formatting from an account,
an optional container and an optional object name (the object name may itself
contain `/`, e.g. `<id>/msg`), so we keep the three components structured. -/

/-- HTTP method of a backend sub-request. -/
inductive Method
  | GET | PUT | HEAD | POST | DELETE
deriving DecidableEq, Repr

/-- Path of a backend sub-request: `/account[/container[/object]]`. -/
structure OPath where
  account : String
  container : Option String
  obj : Option String
deriving DecidableEq, Repr

/-- Listing entry: one element of a JSON container/account listing, i.e. a dict
with a `name` field (the handlers only ever read `item['name']`). -/
structure Entry where
  name : String
deriving DecidableEq, Repr

/-- Structured view of a request/response body.  `names` is a JSON listing
(list of dicts with a `name` field), `pendingData` a pending-marker body
`{"expires": ...}`, `created` the `{'message': {'id': ...}}` body built at
line 62, `queues` the `{'queues': [...]}` body built at line 102. -/
inductive Body
  | empty
  | text (s : String)
  | names (l : List Entry)
  | pendingData (expires : Int)
  | created (id : String)
  | queues (l : List String)
deriving DecidableEq, Repr

/-- Backend sub-request, as assembled by `make_env`/`Request` in the source. -/
structure BackReq where
  method : Method
  path : OPath
  query : Option String
  body : Body
deriving DecidableEq, Repr

/-- Backend response: numeric status plus structured body.  The source tests
`resp.status[0] == '2'` on the status line of three-digit statuses, embedded
as `is2xx`. -/
structure BackResp where
  status : Nat
  body : Body
deriving DecidableEq, Repr

/-- Test embedded for `resp.status[0] == '2'` (swob status lines always carry a
three-digit code, so the first character is `'2'` iff the code is 2xx). -/
def is2xx (n : Nat) : Bool := decide (200 ≤ n ∧ n < 300)

/-- Python exception, as raised by the middleware code paths:
`raised` for `raise resp` (line 132), `exc` for `raise Exception(...)`
(line 184), `attrError`/`typeError` for the AttributeError/TypeError crashes
latent in the source (missing `increment` method, `resp.status` on `None`,
`dict.startswith`, `str + None`, handler arity). -/
inductive PyErr
  | raised (resp : BackResp)
  | exc (msg : String)
  | attrError (msg : String)
  | typeError (msg : String)
deriving DecidableEq, Repr

/-- The wrapped WSGI application (`self.app`): a state-passing request handler
over an abstract store state `σ`. -/
def App (σ : Type) : Type := σ → BackReq → BackResp × σ

/-! ## String helpers (embeddings of the Python `str` methods used) -/

/-- Embedding of `s.endswith(suffix)`. -/
def strEndsWith (s suffix : String) : Bool := suffix.data.isSuffixOf s.data

/-- Embedding of `s.rstrip(chars)`: removes trailing characters that are
members of `chars` (a character set, not a suffix — this is the well-known
`rstrip` footgun the source walks into at line 144). -/
def rstripChars (s chars : String) : String :=
  ⟨(s.data.reverse.dropWhile (fun c => chars.data.contains c)).reverse⟩

/-- Embedding of `'/' in s`. -/
def strContainsChar (s : String) (c : Char) : Bool := s.data.contains c

/-! ## Canned responses (swob constructors used by the middleware) -/

/-- Response built by `HTTPNoContent(request=req)`. -/
def HTTPNoContent : BackResp := ⟨204, .empty⟩

/-- Response built by `HTTPNotFound(request=req)`. -/
def HTTPNotFound : BackResp := ⟨404, .empty⟩

/-- Response built by `HTTPBadRequest()`. -/
def HTTPBadRequest : BackResp := ⟨400, .empty⟩

/-- Response built by `HTTPPreconditionFailed(request=req, body='Bad HTTP
method')` (queue.py lines 43-45). -/
def HTTPPreconditionFailedResp : BackResp := ⟨412, .text "Bad HTTP method"⟩

/-- Response built by `HTTPCreated(request=req, body=created)` (line 63), with
`created = json.dumps({'message': {'id': new_id}})`. -/
def HTTPCreatedResp (id : String) : BackResp := ⟨201, .created id⟩

namespace MessageQueue

/-! ## `MessageQueue` internals -/

/-- Embedding of `MessageQueue.is_deleted` (queue.py lines 123-132): HEAD the
`<obj>/deleted` marker; 2xx means deleted, 404 means not deleted, anything
else is re-raised (`raise resp`, line 132). -/
def is_deleted (app : App σ) (account container obj : String) (st : σ) :
    Except PyErr Bool × σ :=
  let (resp, st1) := app st
    ⟨.HEAD, ⟨account, some container, some (obj ++ "/deleted")⟩, none, .empty⟩
  if is2xx resp.status then (.ok true, st1)
  else if resp.status = 404 then (.ok false, st1)
  else (.error (.raised resp), st1)

/-- Embedding of `MessageQueue.list_container` (queue.py lines 172-186): GET
the container listing in JSON format (with an optional pagination marker);
204 yields an empty page, any other non-2xx status raises
`Exception('Error querying object server')`. -/
def list_container (app : App σ) (account container : String)
    (marker : Option String) (st : σ) : Except PyErr (List Entry) × σ :=
  let q := match marker with
    | none => "format=json"
    | some m => "format=json&marker=" ++ m
  let (resp, st1) := app st ⟨.GET, ⟨account, some container, none⟩, some q, .empty⟩
  if resp.status = 204 then (.ok [], st1)
  else if resp.status < 200 ∨ resp.status ≥ 300 then
    (.error (.exc "Error querying object server"), st1)
  else match resp.body with
    | .names l => (.ok l, st1)
    | _ => (.error (.exc "json"), st1)

/-- Per-page body of the `get_message_list` generator (queue.py lines
137-148): walk one listing page in order, tracking the `deleted` flag and the
last-seen pending sub-key, and collect the `(message id, pending)` pairs the
generator yields for this page.  The message id is recovered with
`item['name'].rstrip('/msg')` (line 144), faithfully embedded including the
character-set semantics of `rstrip`. -/
def pageYield : List Entry → Bool → Option String → List (String × Option String)
  | [], _, _ => []
  | item :: rest, deleted, pending =>
    if strEndsWith item.name "/deleted" then pageYield rest true pending
    else if strEndsWith item.name "/msg" then
      (if !deleted then [(rstripChars item.name "/msg", pending)] else [])
        ++ pageYield rest false none
    else if strContainsChar item.name '/' && !deleted then
      pageYield rest deleted (some item.name)
    else pageYield rest deleted pending

/-- Embedding of `MessageQueue.get_message` (queue.py lines 152-169).  With a
pending sub-key: GET it; a non-2xx response is returned as-is (line 159); on a
2xx response, if the encoded expiry is still in the future the bare `return`
at line 162 produces `None` (embedded as `.ok none`).  Every path that gets
past those checks reaches `self.increment(...)` (lines 165/167) — a method
that does not exist anywhere, so it raises `AttributeError`.  The payload GET
and the pending-marker PUT the surrounding spec describes are never issued. -/
def get_message (app : App σ) (now : Int) (account container : String)
    (msg : String) (pending : Option String) (st : σ) :
    Except PyErr (Option BackResp) × σ :=
  match pending with
  | some p =>
    let (resp, st1) := app st ⟨.GET, ⟨account, some container, some p⟩, none, .empty⟩
    if !is2xx resp.status then (.ok (some resp), st1)
    else match resp.body with
      | .pendingData expires =>
        if now < expires then (.ok none, st1)
        else (.error (.attrError "increment"), st1)
      | _ => (.error (.exc "json decode"), st1)
  | none => (.error (.attrError "increment"), st)

/-- Embedding of `MessageQueue.still_pending` (queue.py lines 188-189): the
body is just `pass`, so the call always returns `None` — which is falsy, so
the `continue` guarded by it at line 84-85 never fires. -/
def still_pending (pending : Option String) : Option Unit := none

/-- One page worth of the claim-next loop body (queue.py lines 81-89) applied
to the pairs yielded by the generator for the current page.  `.ok none` means
every candidate on this page was skipped (loop continues with the next page);
`.ok (some r)` means `return resp` fired.  Reading `resp.status` when
`get_message` returned `None` is the `AttributeError` crash at line 87. -/
def scanPairs (app : App σ) (now : Int) (account container : String) :
    List (String × Option String) → σ → Except PyErr (Option BackResp) × σ
  | [], st => (.ok none, st)
  | (msg, pending) :: rest, st =>
    match is_deleted app account container msg st with
    | (.error e, st1) => (.error e, st1)
    | (.ok true, st1) => scanPairs app now account container rest st1
    | (.ok false, st1) =>
      match still_pending pending with
      | some _ => scanPairs app now account container rest st1
      | none =>
        match get_message app now account container msg pending st1 with
        | (.error e, st2) => (.error e, st2)
        | (.ok none, st2) => (.error (.attrError "NoneType has no attribute status"), st2)
        | (.ok (some r), st2) =>
          if is2xx r.status then (.ok (some r), st2)
          else scanPairs app now account container rest st2

/-- Pagination of the claim-next scan (the `while data:` loop of
`get_message_list`, lines 136-150, inlined with its consumer).  After a page
is exhausted without a decision, the next page is fetched with the last name
of the current page as marker.  `fuel` bounds the number of page fetches (the
Python loop relies on the backing store eventually returning an empty page);
running out of fuel ends the scan like an empty page would. -/
def claimNextPages (app : App σ) (now : Int) (account container : String) :
    Nat → List Entry → σ → Except PyErr BackResp × σ
  | _, [], st => (.ok HTTPNoContent, st)
  | fuel, d :: ds, st =>
    match scanPairs app now account container (pageYield (d :: ds) false none) st with
    | (.error e, st1) => (.error e, st1)
    | (.ok (some r), st1) => (.ok r, st1)
    | (.ok none, st1) =>
      match fuel with
      | 0 => (.ok HTTPNoContent, st1)
      | fuel' + 1 =>
        match list_container app account container
            (some (List.getLast (d :: ds) (List.cons_ne_nil d ds)).name) st1 with
        | (.error e, st2) => (.error e, st2)
        | (.ok data', st2) => claimNextPages app now account container fuel' data' st2

/-- Embedding of the claim-next branch of `MessageQueue.GET` (queue.py lines
79-90): fetch the first listing page and run the scan; an exhausted listing
yields `HTTPNoContent` (line 90). -/
def claimNext (app : App σ) (now : Int) (fuel : Nat)
    (account container : String) (st : σ) : Except PyErr BackResp × σ :=
  match list_container app account container none st with
  | (.error e, st1) => (.error e, st1)
  | (.ok data, st1) => claimNextPages app now account container fuel data st1

/-- Embedding of the get-by-id branch of `MessageQueue.GET` (queue.py lines
74-78): a deleted message answers `HTTPNoContent`; otherwise the result of
`get_message(req, account, container, obj, None)` is returned verbatim
(`Option BackResp`, since `get_message` can produce `None`). -/
def getById (app : App σ) (now : Int) (account container obj : String)
    (st : σ) : Except PyErr (Option BackResp) × σ :=
  match is_deleted app account container obj st with
  | (.error e, st1) => (.error e, st1)
  | (.ok true, st1) => (.ok (some HTTPNoContent), st1)
  | (.ok false, st1) => get_message app now account container obj none st1

/-- Embedding of the all-queues branch of `MessageQueue.GET` (queue.py lines
91-104): GET the account listing in JSON format.  On a 2xx response the code
iterates `for o in objs: if o.startswith(self.prefix)` — but each `o` is a
dict (a JSON listing entry), so the first iteration raises `AttributeError`;
only an empty listing survives to return `{'queues': []}`.  (Even with
`o['name']`, `lstrip(self.prefix)` would strip a character set, not the
prefix.)  Non-2xx responses are returned as-is. -/
def listQueues (app : App σ) (pfx account : String) (st : σ) :
    Except PyErr BackResp × σ :=
  let (resp, st1) := app st ⟨.GET, ⟨account, none, none⟩, some "format=json", .empty⟩
  if is2xx resp.status then
    match resp.body with
    | .names objs =>
      match objs with
      | [] => (.ok ⟨200, .queues []⟩, st1)
      | _ :: _ => (.error (.attrError "dict object has no attribute startswith"), st1)
    | _ => (.error (.exc "json decode"), st1)
  else (.ok resp, st1)

/-- Embedding of `MessageQueue.GET` (queue.py lines 73-90) for the dispatched
cases that carry a container (the account-listing branch is reached separately
via `listQueues`; see `callMw`).  Result is `Option BackResp` because the
get-by-id branch forwards `get_message`'s possible `None`. -/
def GEThandler (app : App σ) (now : Int) (fuel : Nat)
    (account container : String) (obj : Option String) (st : σ) :
    Except PyErr (Option BackResp) × σ :=
  match obj with
  | some o => getById app now account container o st
  | none =>
    match claimNext app now fuel account container st with
    | (.error e, st1) => (.error e, st1)
    | (.ok r, st1) => (.ok (some r), st1)

/-- Embedding of `MessageQueue.POST` (queue.py lines 52-71).  With an object
segment: only `message` is accepted; a fresh id is generated and the request
body is PUT to `<account>/<container>/<id>/msg`; a 2xx store response becomes
`HTTPCreated` with the `{'message': {'id': new_id}}` body, anything else is
returned as-is.  Without an object segment the queue container itself is PUT.
Returns the (result, state) pair together with the updated generator. -/
def POSThandler (app : App σ) (u : SortableUid) (timeMs : Nat)
    (account container : String) (obj : Option String) (body : Body)
    (st : σ) : (Except PyErr BackResp × σ) × SortableUid :=
  match obj with
  | some o =>
    if o ≠ "message" then ((.ok HTTPBadRequest, st), u)
    else
      let (new_id, u') := u.get timeMs
      let (resp, st1) := app st
        ⟨.PUT, ⟨account, some container, some (new_id ++ "/msg")⟩, none, body⟩
      if is2xx resp.status then ((.ok (HTTPCreatedResp new_id), st1), u')
      else ((.ok resp, st1), u')
  | none =>
    let (resp, st1) := app st ⟨.PUT, ⟨account, some container, none⟩, none, body⟩
    ((.ok resp, st1), u)

/-- Embedding of `MessageQueue.DELETE` (queue.py lines 106-118).  With an
object segment: an already-deleted message answers `HTTPNotFound` (line 110)
without any further store call; otherwise the request is re-issued as a PUT of
`<obj>/deleted` and the store response returned.  Without an object segment
the request is rejected with `HTTPBadRequest` (queue deletion unsupported). -/
def DELETEhandler (app : App σ) (account container : String)
    (obj : Option String) (body : Body) (st : σ) :
    Except PyErr BackResp × σ :=
  match obj with
  | some o =>
    match is_deleted app account container o st with
    | (.error e, st1) => (.error e, st1)
    | (.ok true, st1) => (.ok HTTPNotFound, st1)
    | (.ok false, st1) =>
      let (resp, st2) := app st1
        ⟨.PUT, ⟨account, some container, some (o ++ "/deleted")⟩, none, body⟩
      (.ok resp, st2)
  | none => (.ok HTTPBadRequest, st)

end MessageQueue

/-! ## Request dispatch (`MessageQueue.__call__`, queue.py lines 33-50) -/

/-- Attribute names on which `getattr(self, req.method)` (queue.py line 41)
succeeds: the methods declared in the `MessageQueue` class body (queue.py
lines 28-189, including `__init__` and `__call__`), the instance attributes
set in `__init__`, and the attributes every new-style Python 2 instance
carries (those inherited from `object`, plus `__dict__`, `__module__` and
`__weakref__`) — the class defines no `__getattr__` hook, so lookup succeeds
on exactly these names.  Only `GET`, `POST` and `DELETE` are request
handlers; looking up any other listed name succeeds, and the subsequent call
`handler(req, account, container, message)` then raises `TypeError` (wrong
arity for the other methods, not callable for the data attributes). -/
def mqAttrs : List String :=
  ["GET", "POST", "DELETE",
   "__init__", "__call__", "generate_id", "is_deleted", "get_message_list",
   "get_message", "list_container", "still_pending",
   "app", "prefix", "_uid_generator",
   "__class__", "__delattr__", "__dict__", "__doc__", "__format__",
   "__getattribute__", "__hash__", "__module__", "__new__", "__reduce__",
   "__reduce_ex__", "__repr__", "__setattr__", "__sizeof__", "__str__",
   "__subclasshook__", "__weakref__"]

/-- Outcome of the middleware `__call__`: a response, or the request falling
through to the wrapped application (non-queue paths). -/
inductive MwOut
  | resp (r : BackResp)
  | forwarded
deriving DecidableEq, Repr

/-- Embedding of `MessageQueue.__call__` (queue.py lines 33-50) after
`split_path(1, 4, True)` has produced `(version, account, queue, message)`.
For queue-namespace requests (`version == 'queue' and account` truthy) the
handler is looked up by `getattr(self, req.method)`; an unknown name answers
`HTTPPreconditionFailed` with body `'Bad HTTP method'` and never touches the
store.  Otherwise `container = self.prefix + queue` is computed (line 47) —
a `TypeError` when `queue` is `None`, i.e. on any two-segment path such as a
list-queues request — and the handler is invoked.  A known non-handler
attribute (e.g. `generate_id`) is called with the four handler arguments and
raises `TypeError` (wrong arity; a non-callable attribute such as
`self.prefix` raises `TypeError` too).  A `GET` handler that returns `None` makes
`resp(env, start_response)` at line 49 raise `TypeError` as well. -/
def callMw (app : App σ) (pfx : String) (u : SortableUid) (now : Int)
    (timeMs fuel : Nat) (method : String) (version : String)
    (account queue message : Option String) (body : Body) (st : σ) :
    (Except PyErr MwOut × σ) × SortableUid :=
  match account with
  | some a =>
    if version = "queue" && !a.isEmpty then
      if mqAttrs.contains method then
        match queue with
        | none =>
          -- line 47: `self.prefix + queue` with `queue = None`
          ((.error (.typeError "cannot concatenate str and NoneType"), st), u)
        | some q =>
          let container := pfx ++ q
          if method = "GET" then
            match MessageQueue.GEThandler app now fuel a container message st with
            | (.error e, st1) => ((.error e, st1), u)
            | (.ok (some r), st1) => ((.ok (.resp r), st1), u)
            | (.ok none, st1) =>
              -- line 49: `resp(env, start_response)` with `resp = None`
              ((.error (.typeError "NoneType object is not callable"), st1), u)
          else if method = "POST" then
            let ((res, st1), u') :=
              MessageQueue.POSThandler app u timeMs a container message body st
            ((res.map .resp, st1), u')
          else if method = "DELETE" then
            let (res, st1) := MessageQueue.DELETEhandler app a container message body st
            ((res.map .resp, st1), u)
          else
            -- a known attribute that is not a request handler, called with
            -- `(req, account, container, message)`: TypeError (wrong arity
            -- for the other methods, not callable for the data attributes)
            ((.error (.typeError "not callable or wrong number of arguments"), st), u)
      else ((.ok (.resp HTTPPreconditionFailedResp), st), u)
    else ((.ok .forwarded, st), u)
  | none => ((.ok .forwarded, st), u)

/-! ## A faithful object-store backend

The spec treats the backing store as a collaborator offering atomic PUT, GET,
HEAD, DELETE on single keys plus ordered JSON listings.  `objStoreApp` is that
collaborator as a concrete `App ObjStore`: a finite map from
`(account, container, object name)` to bodies, with listings returned sorted
by name and filtered by the pagination marker (names strictly greater than
the marker, swift's listing convention). -/

/-- One stored object. -/
structure StoredObj where
  acct : String
  cont : String
  name : String
  data : Body
deriving DecidableEq, Repr

/-- State of the backing object store: containers and objects. -/
structure ObjStore where
  containers : List (String × String)
  objects : List StoredObj
deriving DecidableEq, Repr

/-- Look up an object body. -/
def lookupObj (st : ObjStore) (a c o : String) : Option Body :=
  (st.objects.find? (fun e => e.acct == a && e.cont == c && e.name == o)).map
    (fun e => e.data)

/-- Store (or overwrite) an object body. -/
def putObj (st : ObjStore) (a c o : String) (b : Body) : ObjStore :=
  { st with objects :=
      ⟨a, c, o, b⟩ ::
        st.objects.filter (fun e => !(e.acct == a && e.cont == c && e.name == o)) }

/-- Computable lexicographic comparison on character lists (the order the
object store sorts listings by). -/
def charListLt : List Char → List Char → Bool
  | [], [] => false
  | [], _ :: _ => true
  | _ :: _, [] => false
  | a :: as, b :: bs =>
    if a < b then true
    else if b < a then false
    else charListLt as bs

/-- Lexicographic comparison on strings. -/
def strLt (x y : String) : Bool := charListLt x.data y.data

/-- Insertion into a sorted list of strings (ascending lexical order). -/
def insertSorted (x : String) : List String → List String
  | [] => [x]
  | y :: ys => if strLt x y then x :: y :: ys else y :: insertSorted x ys

/-- Lexicographic insertion sort for listing names. -/
def sortStrings (l : List String) : List String := l.foldr insertSorted []

/-- Names of the objects of one container. -/
def objectsIn (st : ObjStore) (a c : String) : List String :=
  (st.objects.filter (fun e => e.acct == a && e.cont == c)).map (fun e => e.name)

/-- Container names of one account. -/
def containersIn (st : ObjStore) (a : String) : List String :=
  (st.containers.filter (fun e => e.1 == a)).map (fun e => e.2)

/-- Extract the pagination marker from the query string assembled by
`list_container` (`'format=json'` or `'format=json&marker=' + marker`). -/
def parseMarker (q : Option String) : Option String :=
  match q with
  | none => none
  | some s =>
    match s.data.dropPrefix? "format=json&marker=".data with
    | some rest => some ⟨rest⟩
    | none => none

/-- One listing page: names after the marker, in ascending lexical order. -/
def listingAfter (names : List String) (marker : Option String) : List String :=
  (sortStrings names).filter (fun n =>
    match marker with
    | none => true
    | some m => strLt m n)

/-- The object-store collaborator.  HEAD/GET answer 200/404 by presence, PUT
stores the request body and answers 201, container and account GETs answer the
sorted JSON listing (204 when empty, matching `list_container`'s handling).
Anything else is a 400. -/
def objStoreApp : App ObjStore := fun st req =>
  match req.path.container, req.path.obj with
  | some c, some o =>
    match req.method with
    | .HEAD =>
      ((if (lookupObj st req.path.account c o).isSome then ⟨200, .empty⟩
        else ⟨404, .empty⟩ : BackResp), st)
    | .GET =>
      match lookupObj st req.path.account c o with
      | some b => (⟨200, b⟩, st)
      | none => (⟨404, .empty⟩, st)
    | .PUT => (⟨201, .empty⟩, putObj st req.path.account c o req.body)
    | _ => (⟨400, .empty⟩, st)
  | some c, none =>
    match req.method with
    | .GET =>
      let names := listingAfter (objectsIn st req.path.account c) (parseMarker req.query)
      if names.isEmpty then (⟨204, .empty⟩, st)
      else (⟨200, .names (names.map Entry.mk)⟩, st)
    | .PUT => (⟨201, .empty⟩, { st with containers := (req.path.account, c) :: st.containers })
    | _ => (⟨400, .empty⟩, st)
  | none, _ =>
    match req.method with
    | .GET =>
      let names := listingAfter (containersIn st req.path.account) (parseMarker req.query)
      if names.isEmpty then (⟨200, .names []⟩, st)
      else (⟨200, .names (names.map Entry.mk)⟩, st)
    | _ => (⟨400, .empty⟩, st)

/-- A backend wrapper that overrides the response to HEAD requests on one
path with a fixed status, used to model a transient resolver fault on a
single candidate message. -/
def withHeadFault (p : OPath) (s : Nat) (app : App σ) : App σ := fun st req =>
  if req.method = .HEAD && req.path = p then (⟨s, .empty⟩, st)
  else app st req

/-- A backend that answers every request with a fixed status, used to model a
store that rejects writes or whose listing fails. -/
def constApp (s : Nat) : App Unit := fun st _ => (⟨s, .empty⟩, st)

/-! ## Auxiliary definitions used by the theorems -/

/-- Big-endian numeric value of a list of hex digit characters. -/
def decodeHex : List Char → Nat
  | [] => 0
  | c :: l => hexVal c * 16 ^ l.length + decodeHex l

/-- A canonical hex digit character: `hexDigitChar` of a value below 16. -/
abbrev goodDigit (c : Char) : Prop := hexVal c < 16 ∧ hexDigitChar (hexVal c) = c

/-- Classifier for claim-next outcomes: `HTTPNoContent` or a raised Python
error (the only outcomes the embedded claim-next can produce — in particular
never a message payload). -/
def noContentOrError : Except PyErr BackResp → Bool
  | .ok r => r == HTTPNoContent
  | .error _ => true

/-! ## Concrete stores used as test inputs -/

/-- A queue with a single available message `0a1`. -/
def storeAvail : ObjStore :=
  ⟨[("a", ".queue-q")], [⟨"a", ".queue-q", "0a1/msg", .text "payload"⟩]⟩

/-- A queue where message `0a1` holds an unexpired pending marker (expiry 100)
and a second message `0b2` is available. -/
def storePending : ObjStore :=
  ⟨[("a", ".queue-q")],
   [⟨"a", ".queue-q", "0a1/msg", .text "hello"⟩,
    ⟨"a", ".queue-q", "0a1/00b", .pendingData 100⟩,
    ⟨"a", ".queue-q", "0b2/msg", .text "world"⟩]⟩

/-- A queue where message `0a1` carries a `deleted` tombstone (plus a stale
pending marker). -/
def storeDeleted : ObjStore :=
  ⟨[("a", ".queue-q")],
   [⟨"a", ".queue-q", "0a1/deleted", .empty⟩,
    ⟨"a", ".queue-q", "0a1/msg", .text "x"⟩,
    ⟨"a", ".queue-q", "0a1/00b", .pendingData 100⟩]⟩

/-- Two available messages `0a1` and `0b2`, used for the resolver-fault
scenarios. -/
def storeTwo : ObjStore :=
  ⟨[("a", ".queue-q")],
   [⟨"a", ".queue-q", "0a1/msg", .text "first"⟩,
    ⟨"a", ".queue-q", "0b2/msg", .text "second"⟩]⟩

/-- An account with one queue container, for the list-queues scenario. -/
def storeQueues : ObjStore := ⟨[("a", ".queue-q1")], []⟩

/-! ## Lemmas: hex formatting and lexicographic order -/

/-- Every canonical hex digit is a `goodDigit`. -/
theorem goodDigit_hexDigitChar : ∀ v < 16, goodDigit (hexDigitChar v) := by decide

/-- `hexVal` inverts `hexDigitChar` below 16. -/
theorem hexVal_hexDigitChar : ∀ v < 16, hexVal (hexDigitChar v) = v := by decide

/-- `hexDigitChar` is strictly monotone below 16 (character order agrees with
digit value order). -/
theorem hexDigitChar_lt : ∀ v < 16, ∀ w < 16, v < w →
    hexDigitChar v < hexDigitChar w := by decide

/-- The zero digit is canonical. -/
theorem goodDigit_zero : goodDigit '0' := by decide

/-- A string of canonical hex digits decodes below `16 ^ length`. -/
theorem decodeHex_lt : ∀ l : List Char, (∀ c ∈ l, goodDigit c) →
    decodeHex l < 16 ^ l.length := by
  intro l
  induction l with
  | nil => intro _; simp [decodeHex]
  | cons c t ih =>
    intro hg
    have hc : goodDigit c := hg c (List.mem_cons_self c t)
    have ht := ih (fun x hx => hg x (List.mem_cons_of_mem c hx))
    have hv : hexVal c ≤ 15 := Nat.lt_succ_iff.mp hc.1
    calc decodeHex (c :: t) = hexVal c * 16 ^ t.length + decodeHex t := rfl
      _ < hexVal c * 16 ^ t.length + 16 ^ t.length := by omega
      _ = (hexVal c + 1) * 16 ^ t.length := by ring
      _ ≤ 16 * 16 ^ t.length := by
          exact Nat.mul_le_mul_right _ (by omega)
      _ = 16 ^ (c :: t).length := by
          simp [List.length_cons, pow_succ]; ring

/-- Decoding distributes over append. -/
theorem decodeHex_append : ∀ a b : List Char,
    decodeHex (a ++ b) = decodeHex a * 16 ^ b.length + decodeHex b := by
  intro a b
  induction a with
  | nil => simp [decodeHex]
  | cons c t ih =>
    simp only [List.cons_append, decodeHex, ih, List.length_append, List.append_eq, pow_add]
    ring

/-- Canonical digits with equal values are equal characters. -/
theorem goodDigit_eq (c₁ c₂ : Char) (h₁ : goodDigit c₁) (h₂ : goodDigit c₂)
    (h : hexVal c₁ = hexVal c₂) : c₁ = c₂ := by
  have := h₁.2
  rw [h] at this
  rw [← this, h₂.2]

/-- On equal-length strings of canonical hex digits, numeric order of the
decoded values implies lexicographic order. -/
theorem lex_lt_of_decodeHex_lt : ∀ (l₁ l₂ : List Char),
    (∀ c ∈ l₁, goodDigit c) → (∀ c ∈ l₂, goodDigit c) →
    l₁.length = l₂.length → decodeHex l₁ < decodeHex l₂ →
    List.Lex (· < ·) l₁ l₂ := by
  intro l₁
  induction l₁ with
  | nil =>
    intro l₂ _ _ hlen hdec
    cases l₂ with
    | nil => simp [decodeHex] at hdec
    | cons c t => simp at hlen
  | cons c₁ t₁ ih =>
    intro l₂ hg₁ hg₂ hlen hdec
    cases l₂ with
    | nil => simp at hlen
    | cons c₂ t₂ =>
      have hlen' : t₁.length = t₂.length := by simpa using hlen
      have hgc₁ : goodDigit c₁ := hg₁ c₁ (List.mem_cons_self c₁ t₁)
      have hgc₂ : goodDigit c₂ := hg₂ c₂ (List.mem_cons_self c₂ t₂)
      have hgt₁ : ∀ c ∈ t₁, goodDigit c := fun x hx => hg₁ x (List.mem_cons_of_mem _ hx)
      have hgt₂ : ∀ c ∈ t₂, goodDigit c := fun x hx => hg₂ x (List.mem_cons_of_mem _ hx)
      have hd₁ : decodeHex t₁ < 16 ^ t₁.length := decodeHex_lt t₁ hgt₁
      have hd₂ : decodeHex t₂ < 16 ^ t₂.length := decodeHex_lt t₂ hgt₂
      have e₁ : decodeHex (c₁ :: t₁) = hexVal c₁ * 16 ^ t₁.length + decodeHex t₁ := rfl
      have e₂ : decodeHex (c₂ :: t₂) = hexVal c₂ * 16 ^ t₂.length + decodeHex t₂ := rfl
      rcases Nat.lt_trichotomy (hexVal c₁) (hexVal c₂) with hv | hv | hv
      · have : c₁ < c₂ := by
          have h₁ := hgc₁.2
          have h₂ := hgc₂.2
          rw [← h₁, ← h₂]
          exact hexDigitChar_lt _ hgc₁.1 _ hgc₂.1 hv
        exact List.Lex.rel this
      · have hceq : c₁ = c₂ := goodDigit_eq c₁ c₂ hgc₁ hgc₂ hv
        have hdt : decodeHex t₁ < decodeHex t₂ := by
          rw [e₁, e₂, hv, hlen'] at hdec
          omega
        have htl : List.Lex (· < ·) t₁ t₂ := ih t₂ hgt₁ hgt₂ hlen' hdt
        subst hceq
        exact List.Lex.cons htl
      · exfalso
        have : decodeHex (c₂ :: t₂) < decodeHex (c₁ :: t₁) := by
          rw [e₁, e₂, hlen']
          have : (hexVal c₂ + 1) * 16 ^ t₂.length ≤ hexVal c₁ * 16 ^ t₂.length :=
            Nat.mul_le_mul_right _ (by omega)
          nlinarith [hd₂]
        omega

/-- Lexicographic order on equal-length prefixes carries over to appended
strings, whatever the tails are. -/
theorem lex_lt_append : ∀ (a b x y : List Char), a.length = b.length →
    List.Lex (· < ·) a b → List.Lex (· < ·) (a ++ x) (b ++ y) := by
  intro a
  induction a with
  | nil =>
    intro b x y hlen h
    cases b with
    | nil => cases h
    | cons c t => simp at hlen
  | cons ca ta ih =>
    intro b x y hlen h
    cases b with
    | nil => simp at hlen
    | cons cb tb =>
      cases h with
      | rel hc => exact List.Lex.rel hc
      | cons h₃ => exact List.Lex.cons (ih tb x y (by simpa using hlen) h₃)

/-- All characters produced by `hexDigitsAux` are canonical hex digits. -/
theorem hexDigitsAux_good : ∀ fuel n, ∀ c ∈ hexDigitsAux fuel n, goodDigit c := by
  intro fuel
  induction fuel with
  | zero => intro n c hc; simp [hexDigitsAux] at hc
  | succ fuel ih =>
    intro n c hc
    by_cases h : n < 16
    · simp [hexDigitsAux, h] at hc
      subst hc
      exact goodDigit_hexDigitChar n h
    · simp [hexDigitsAux, h] at hc
      rcases hc with hc | hc
      · exact ih _ c hc
      · subst hc
        exact goodDigit_hexDigitChar _ (Nat.mod_lt _ (by omega))

/-- `hexDigitsAux` decodes back to its input when the fuel suffices. -/
theorem decodeHex_hexDigitsAux : ∀ fuel n, n < fuel →
    decodeHex (hexDigitsAux fuel n) = n := by
  intro fuel
  induction fuel with
  | zero => intro n h; omega
  | succ fuel ih =>
    intro n h
    by_cases hn : n < 16
    · simp [hexDigitsAux, hn, decodeHex, hexVal_hexDigitChar n hn]
    · have hdiv : n / 16 < fuel := by
        have h1 : n / 16 < n := Nat.div_lt_self (by omega) (by omega)
        omega
      simp only [hexDigitsAux, hn, if_false, decodeHex_append, ih _ hdiv]
      simp [decodeHex, hexVal_hexDigitChar _ (Nat.mod_lt n (by omega))]
      omega

/-- Length bound: below `16 ^ w` the hex representation has at most `w`
digits (for positive `w`). -/
theorem hexDigitsAux_length_le : ∀ fuel n w, n < fuel → n < 16 ^ w → 0 < w →
    (hexDigitsAux fuel n).length ≤ w := by
  intro fuel
  induction fuel with
  | zero => intro n w h; omega
  | succ fuel ih =>
    intro n w h hw hw0
    by_cases hn : n < 16
    · simpa [hexDigitsAux, hn] using hw0
    · have hw2 : 2 ≤ w := by
        rcases Nat.lt_or_ge w 2 with h2 | h2
        · interval_cases w <;> simp_all <;> omega
        · exact h2
      have hdivfuel : n / 16 < fuel := by
        have : n / 16 < n := Nat.div_lt_self (by omega) (by omega)
        omega
      have hdivpow : n / 16 < 16 ^ (w - 1) := by
        rw [Nat.div_lt_iff_lt_mul (by omega)]
        have : 16 ^ (w - 1) * 16 = 16 ^ w := by
          rw [← pow_succ]
          congr 1
          omega
        omega
      have := ih (n / 16) (w - 1) hdivfuel hdivpow (by omega)
      simp only [hexDigitsAux, hn, if_false, List.length_append, List.length_cons,
        List.length_nil]
      omega

/-- Below `16 ^ w` (with `w` positive), `pctHex w n` is exactly `w`
characters long. -/
theorem pctHex_length (w n : Nat) (h : n < 16 ^ w) (hw : 0 < w) :
    (pctHex w n).data.length = w := by
  have hle : (hexDigitsAux (n + 1) n).length ≤ w :=
    hexDigitsAux_length_le (n + 1) n w (Nat.lt_succ_self n) h hw
  simp only [pctHex, hexDigits, List.length_append, List.length_replicate]
  omega

/-- Leading zeros decode to nothing. -/
theorem decodeHex_replicate_zero : ∀ k, decodeHex (List.replicate k '0') = 0 := by
  intro k
  induction k with
  | zero => simp [decodeHex]
  | succ k ih => simp [List.replicate, decodeHex, ih, hexVal]

/-- `pctHex w n` decodes back to `n`. -/
theorem decodeHex_pctHex (w n : Nat) : decodeHex (pctHex w n).data = n := by
  simp only [pctHex, decodeHex_append, decodeHex_replicate_zero, hexDigits]
  simp [decodeHex_hexDigitsAux (n + 1) n (Nat.lt_succ_self n)]

/-- All characters of `pctHex w n` are canonical hex digits. -/
theorem pctHex_good (w n : Nat) : ∀ c ∈ (pctHex w n).data, goodDigit c := by
  intro c hc
  simp only [pctHex, List.mem_append, List.mem_replicate] at hc
  rcases hc with ⟨_, hc⟩ | hc
  · subst hc; exact goodDigit_zero
  · exact hexDigitsAux_good (n + 1) n c hc

/-- Fixed-width hex formatting is strictly order-preserving below `16 ^ w`. -/
theorem pctHex_lt (w n m : Nat) (hw : 0 < w) (hnm : n < m) (hm : m < 16 ^ w) :
    List.Lex (· < ·) (pctHex w n).data (pctHex w m).data := by
  apply lex_lt_of_decodeHex_lt
  · exact pctHex_good w n
  · exact pctHex_good w m
  · rw [pctHex_length w n (lt_trans hnm hm) hw, pctHex_length w m hm hw]
  · rw [decodeHex_pctHex, decodeHex_pctHex]
    exact hnm

/-! ## C7: identifier ordering -/

/-- C7. For two identifiers issued sequentially by the same `SortableUid`
instance, with distinct millisecond timestamps each fitting the fixed
10-hex-digit width, the identifier issued earlier is lexically smaller than
the identifier issued later (the fixed-width timestamp field dominates the
comparison whatever the instance tag and counter fields hold). -/
theorem sortable_uid_lexical_order (u : SortableUid) (t₁ t₂ : Nat)
    (h₁₂ : t₁ < t₂) (h₂ : t₂ < 16 ^ TIME_DIGITS) :
    (u.get t₁).1 < ((u.get t₁).2.get t₂).1 := by
  rw [String.lt_iff_toList_lt]
  show List.Lex (· < ·) _ _
  simp only [SortableUid.get, String.toList, String.data_append]
  rw [List.append_assoc, List.append_assoc]
  apply lex_lt_append
  · rw [pctHex_length TIME_DIGITS t₁ (lt_trans h₁₂ h₂) (by decide),
      pctHex_length TIME_DIGITS t₂ h₂ (by decide)]
  · exact pctHex_lt TIME_DIGITS t₁ t₂ (by decide) h₁₂ h₂

/-- Witness for C7 at a concrete instance and timestamps. -/
theorem sortable_uid_lexical_order_witness :
    (1000 : Nat) < 1001 ∧ (1001 : Nat) < 16 ^ TIME_DIGITS ∧
      ((⟨"abc", 0⟩ : SortableUid).get 1000).1 <
        (((⟨"abc", 0⟩ : SortableUid).get 1000).2.get 1001).1 :=
  ⟨by decide, by decide,
    sortable_uid_lexical_order ⟨"abc", 0⟩ 1000 1001 (by decide) (by decide)⟩

/-! ## Lemmas: outcomes of the claim-next scan

In the embedded code, `get_message` can only produce `.ok (some r)` for a
non-2xx `r` (the early return of the pending-marker GET at line 159); every
other completed path is an error.  Consequently the claim-next loop can never
return a message: its only non-error outcome is `HTTPNoContent`. -/

/-- If `get_message` returns a response, that response is not 2xx. -/
theorem get_message_ok_not2xx {σ : Type} (app : App σ) (now : Int)
    (a c msg : String) (pending : Option String) (st : σ) (r : BackResp)
    (h : (MessageQueue.get_message app now a c msg pending st).1 = .ok (some r)) :
    is2xx r.status = false := by
  match pending with
  | none => simp [MessageQueue.get_message] at h
  | some p =>
    unfold MessageQueue.get_message at h
    dsimp only at h
    split at h
    · rename_i hcond
      simp at h
      rw [← h]
      simpa using hcond
    · split at h
      · split at h <;> simp at h
      · simp at h

/-- The per-page scan never succeeds with a response: it either decides
nothing (`.ok none`) or raises. -/
theorem scanPairs_never_some {σ : Type} (app : App σ) (now : Int)
    (a c : String) :
    ∀ (pairs : List (String × Option String)) (st : σ) (r : BackResp),
      (MessageQueue.scanPairs app now a c pairs st).1 ≠ .ok (some r) := by
  intro pairs
  induction pairs with
  | nil => intro st r h; simp [MessageQueue.scanPairs] at h
  | cons hd tl ih =>
    intro st r h
    obtain ⟨msg, pending⟩ := hd
    unfold MessageQueue.scanPairs at h
    split at h
    · simp at h
    · exact ih _ r h
    · rename_i st1 heq
      simp only [MessageQueue.still_pending] at h
      split at h
      · simp at h
      · simp at h
      · rename_i r' st2 heq2
        split at h
        · rename_i h2xx
          have hn := get_message_ok_not2xx app now a c msg pending st1 r' (by rw [heq2])
          rw [hn] at h2xx
          simp at h2xx
        · exact ih _ r h

/-- Paged scanning either raises or answers `HTTPNoContent`. -/
theorem claimNextPages_ok_imp_noContent {σ : Type} (app : App σ) (now : Int)
    (a c : String) :
    ∀ (fuel : Nat) (data : List Entry) (st : σ) (r : BackResp),
      (MessageQueue.claimNextPages app now a c fuel data st).1 = .ok r →
      r = HTTPNoContent := by
  intro fuel
  induction fuel with
  | zero =>
    intro data st r h
    cases data with
    | nil =>
      simp [MessageQueue.claimNextPages] at h
      exact h.symm
    | cons d ds =>
      unfold MessageQueue.claimNextPages at h
      split at h
      · simp at h
      · rename_i r' st1 heq
        exact absurd heq (fun hc =>
          scanPairs_never_some app now a c _ st r' (by rw [hc]))
      · simp at h
        exact h.symm
  | succ fuel ih =>
    intro data st r h
    cases data with
    | nil =>
      simp [MessageQueue.claimNextPages] at h
      exact h.symm
    | cons d ds =>
      unfold MessageQueue.claimNextPages at h
      split at h
      · simp at h
      · rename_i r' st1 heq
        exact absurd heq (fun hc =>
          scanPairs_never_some app now a c _ st r' (by rw [hc]))
      · rename_i st1 heq
        split at h
        · simp at h
          exact h.symm
        · rename_i fuel' heq'
          split at h
          · simp at h
          · have hf : fuel' = fuel := by omega
            subst hf
            exact ih _ _ r h

/-- The embedded claim-next either raises or answers `HTTPNoContent`; in
particular it never returns a message payload. -/
theorem claimNext_ok_imp_noContent {σ : Type} (app : App σ) (now : Int)
    (fuel : Nat) (a c : String) (st : σ) (r : BackResp)
    (h : (MessageQueue.claimNext app now fuel a c st).1 = .ok r) :
    r = HTTPNoContent := by
  unfold MessageQueue.claimNext at h
  split at h
  · simp at h
  · exact claimNextPages_ok_imp_noContent app now a c fuel _ _ r h


/-! ## C3: tombstones are terminal -/

/-- C3. Once a `<id>/deleted` tombstone object exists in the backing store, no
claim-next or get-by-id call returns that message, regardless of any pending
markers present: get-by-id answers `HTTPNoContent` (the `is_deleted` HEAD sees
the tombstone), and claim-next can only answer `HTTPNoContent` or raise — it
never returns a message payload at all. -/
theorem deleted_message_never_returned (st : ObjStore) (a c m : String)
    (fuel : Nat) (now : Int)
    (h : (lookupObj st a c (m ++ "/deleted")).isSome = true) :
    (MessageQueue.getById objStoreApp now a c m st).1 = .ok (some HTTPNoContent) ∧
    noContentOrError (MessageQueue.claimNext objStoreApp now fuel a c st).1 = true := by
  constructor
  · unfold MessageQueue.getById MessageQueue.is_deleted
    simp [objStoreApp, h, is2xx]
  · cases hr : (MessageQueue.claimNext objStoreApp now fuel a c st).1 with
    | ok r =>
      have hnc := claimNext_ok_imp_noContent objStoreApp now fuel a c st r hr
      subst hnc
      rfl
    | error e => rfl

/-- Witness for C3 on a concrete store holding a tombstone for `0a1`. -/
theorem deleted_message_never_returned_witness :
    (lookupObj storeDeleted "a" ".queue-q" ("0a1" ++ "/deleted")).isSome = true ∧
    ((MessageQueue.getById objStoreApp 50 "a" ".queue-q" "0a1" storeDeleted).1 =
        .ok (some HTTPNoContent) ∧
      noContentOrError
        (MessageQueue.claimNext objStoreApp 50 2 "a" ".queue-q" storeDeleted).1 = true) :=
  ⟨rfl, deleted_message_never_returned storeDeleted "a" ".queue-q" "0a1" 2 50 rfl⟩

/-! ## C4: acknowledge is idempotent -/

/-- Looking up a key immediately after storing it yields the stored body. -/
theorem lookupObj_putObj_self (st : ObjStore) (a c o : String) (b : Body) :
    lookupObj (putObj st a c o b) a c o = some b := by
  simp [lookupObj, putObj, List.find?]

/-- C4. Acknowledge (`DELETE` on queue and message id) is idempotent: with no
tombstone present, the first call PUTs the `<id>/deleted` tombstone (carrying
the request body) and returns the store's 201; the second call sees the
tombstone via the `is_deleted` HEAD, answers `HTTPNotFound`, performs no
write, and leaves the store — hence the observable Deleted state —
unchanged. -/
theorem acknowledge_idempotent (st : ObjStore) (a c obj : String) (body : Body)
    (h : lookupObj st a c (obj ++ "/deleted") = none) :
    (MessageQueue.DELETEhandler objStoreApp a c (some obj) body st).1 = .ok ⟨201, .empty⟩ ∧
    (MessageQueue.DELETEhandler objStoreApp a c (some obj) body st).2 =
      putObj st a c (obj ++ "/deleted") body ∧
    lookupObj (MessageQueue.DELETEhandler objStoreApp a c (some obj) body st).2
      a c (obj ++ "/deleted") = some body ∧
    (MessageQueue.DELETEhandler objStoreApp a c (some obj) body
      (MessageQueue.DELETEhandler objStoreApp a c (some obj) body st).2).1 = .ok HTTPNotFound ∧
    (MessageQueue.DELETEhandler objStoreApp a c (some obj) body
      (MessageQueue.DELETEhandler objStoreApp a c (some obj) body st).2).2 =
      (MessageQueue.DELETEhandler objStoreApp a c (some obj) body st).2 := by
  have h1 : MessageQueue.DELETEhandler objStoreApp a c (some obj) body st =
      (.ok ⟨201, .empty⟩, putObj st a c (obj ++ "/deleted") body) := by
    unfold MessageQueue.DELETEhandler MessageQueue.is_deleted
    simp [objStoreApp, h, is2xx]
  have h2 : MessageQueue.DELETEhandler objStoreApp a c (some obj) body
      (putObj st a c (obj ++ "/deleted") body) =
      (.ok HTTPNotFound, putObj st a c (obj ++ "/deleted") body) := by
    unfold MessageQueue.DELETEhandler MessageQueue.is_deleted
    simp [objStoreApp, lookupObj_putObj_self, is2xx]
  rw [h1]
  exact ⟨rfl, rfl, lookupObj_putObj_self st a c (obj ++ "/deleted") body,
    by rw [h2], by rw [h2]⟩

/-- Witness for C4 on a concrete store with message `0a1` present and no
tombstone. -/
theorem acknowledge_idempotent_witness :
    lookupObj storeAvail "a" ".queue-q" ("0a1" ++ "/deleted") = none ∧
    ((MessageQueue.DELETEhandler objStoreApp "a" ".queue-q" (some "0a1") .empty storeAvail).1 =
        .ok ⟨201, .empty⟩ ∧
      (MessageQueue.DELETEhandler objStoreApp "a" ".queue-q" (some "0a1") .empty storeAvail).2 =
        putObj storeAvail "a" ".queue-q" ("0a1" ++ "/deleted") .empty ∧
      lookupObj (MessageQueue.DELETEhandler objStoreApp "a" ".queue-q" (some "0a1") .empty storeAvail).2
        "a" ".queue-q" ("0a1" ++ "/deleted") = some .empty ∧
      (MessageQueue.DELETEhandler objStoreApp "a" ".queue-q" (some "0a1") .empty
        (MessageQueue.DELETEhandler objStoreApp "a" ".queue-q" (some "0a1") .empty storeAvail).2).1 =
        .ok HTTPNotFound ∧
      (MessageQueue.DELETEhandler objStoreApp "a" ".queue-q" (some "0a1") .empty
        (MessageQueue.DELETEhandler objStoreApp "a" ".queue-q" (some "0a1") .empty storeAvail).2).2 =
        (MessageQueue.DELETEhandler objStoreApp "a" ".queue-q" (some "0a1") .empty storeAvail).2) :=
  ⟨rfl, acknowledge_idempotent storeAvail "a" ".queue-q" "0a1" .empty rfl⟩

/-! ## C1: claim-next cannot claim an available message -/

/-- C1. On a queue holding a single available message (`0a1/msg` present, no
tombstone, no pending marker), the scan resolves the group as available and
hands it to `get_message` with `pending = None` — which immediately evaluates
`self.increment(msg)` (queue.py line 167), a method that exists nowhere in the
class, raising `AttributeError`.  No pending marker is ever written (there is
no `leaseDuration` anywhere in the code), no payload is fetched from
`<id>/msg`, and no marker key is returned: the whole claim-next request
crashes instead. -/
theorem claim_next_crashes_on_available :
    (MessageQueue.claimNext objStoreApp 50 2 "a" ".queue-q" storeAvail).1 =
      .error (.attrError "increment") := rfl

/-! ## C2: unexpired-pending messages crash the scan instead of being skipped -/

/-- C2. On a queue where message `0a1` has a pending marker expiring at 100
and the call time is 50 (the lease is unexpired), and a second message `0b2`
is available: `still_pending` is a `pass` stub returning `None`, so the group
is not skipped; `get_message` reads the marker, sees `time.time() <
data['expires']`, and executes the bare `return` at line 162, handing `None`
back to the loop, which then crashes reading `resp.status` (line 87).  The
scan neither returns `0a1` nor continues to `0b2` — it aborts with
`AttributeError`.  (Had it continued, the outcome would have been the distinct
error `attrError "increment"` from `0b2`'s group.) -/
theorem claim_next_crashes_on_unexpired_pending :
    (50 : Int) < 100 ∧
    (MessageQueue.claimNext objStoreApp 50 2 "a" ".queue-q" storePending).1 =
      .error (.attrError "NoneType has no attribute status") :=
  ⟨by decide, rfl⟩

/-! ## C5: get-by-id of a deleted message answers No Content, not Not Found -/

/-- Counterexample to C5 as stated: for a deleted message, get-by-id answers
`HTTPNoContent` (status 204) — the code at queue.py line 77 — which is not the
"not found" outcome (`HTTPNotFound`, status 404). -/
theorem get_by_id_deleted_counterexample :
    (MessageQueue.getById objStoreApp 50 "a" ".queue-q" "0a1" storeDeleted).1 =
      .ok (some HTTPNoContent) ∧ HTTPNoContent ≠ HTTPNotFound :=
  ⟨rfl, by decide⟩

/-- C5 (amended).  For every get-message-by-id request: if the message is
deleted the response is the "no content" outcome (204), and otherwise —
including the absent case — the call does not produce "not found" but raises
`AttributeError` from the incomplete `get_message` path (`self.increment`,
queue.py line 167). -/
theorem get_by_id_deleted_or_error (st : ObjStore) (now : Int) (a c o : String) :
    (MessageQueue.getById objStoreApp now a c o st).1 =
      (if (lookupObj st a c (o ++ "/deleted")).isSome then .ok (some HTTPNoContent)
       else .error (.attrError "increment")) := by
  by_cases h : (lookupObj st a c (o ++ "/deleted")).isSome
  · simp only [h, if_true]
    unfold MessageQueue.getById MessageQueue.is_deleted
    simp [objStoreApp, h, is2xx]
  · simp only [Bool.not_eq_true] at h
    simp only [h, Bool.false_eq_true, if_false]
    unfold MessageQueue.getById MessageQueue.is_deleted MessageQueue.get_message
    simp [objStoreApp, h, is2xx]

/-! ## C6: enqueue -/

/-- C6. Enqueue (`POST` ending in `/message`): the handler draws a fresh
identifier from the generator, PUTs the request body to
`<account>/<container>/<id>/msg`, and on the store's 2xx answers `HTTPCreated`
with the `{'message': {'id': new_id}}` body; the stored object is retrievable
under the new key.  Against a backend that rejects the write with any non-2xx
status, that store response is surfaced to the caller unchanged. -/
theorem enqueue_spec (st : ObjStore) (u : SortableUid) (timeMs : Nat)
    (a c : String) (body : Body) :
    MessageQueue.POSThandler objStoreApp u timeMs a c (some "message") body st =
      ((.ok (HTTPCreatedResp (u.get timeMs).1),
        putObj st a c ((u.get timeMs).1 ++ "/msg") body), (u.get timeMs).2) ∧
    lookupObj
      (MessageQueue.POSThandler objStoreApp u timeMs a c (some "message") body st).1.2
      a c ((u.get timeMs).1 ++ "/msg") = some body ∧
    (∀ s : Nat, is2xx s = false →
      MessageQueue.POSThandler (constApp s) u timeMs a c (some "message") body () =
        ((.ok ⟨s, .empty⟩, ()), (u.get timeMs).2)) := by
  have h1 : MessageQueue.POSThandler objStoreApp u timeMs a c (some "message") body st =
      ((.ok (HTTPCreatedResp (u.get timeMs).1),
        putObj st a c ((u.get timeMs).1 ++ "/msg") body), (u.get timeMs).2) := by
    unfold MessageQueue.POSThandler
    simp [objStoreApp, is2xx]
  refine ⟨h1, ?_, ?_⟩
  · rw [h1]
    exact lookupObj_putObj_self st a c ((u.get timeMs).1 ++ "/msg") body
  · intro s hs
    unfold MessageQueue.POSThandler constApp
    simp [hs]

/-- Witness for C6's store-rejection hypothesis at status 507. -/
theorem enqueue_spec_witness :
    is2xx 507 = false ∧
    MessageQueue.POSThandler (constApp 507) (⟨"abc", 0⟩ : SortableUid) 5 "a" ".queue-q"
        (some "message") .empty () =
      ((.ok ⟨507, .empty⟩, ()), ((⟨"abc", 0⟩ : SortableUid).get 5).2) :=
  ⟨rfl, (enqueue_spec storeAvail ⟨"abc", 0⟩ 5 "a" ".queue-q" .empty).2.2 507 rfl⟩

/-! ## C8: a single-candidate resolver error aborts the whole scan -/

/-- Counterexample to C8 as stated: with two available messages `0a1` and
`0b2`, a resolver fault on `0a1` alone (its `deleted` HEAD answers 500) makes
the whole claim-next scan abort with that raised response (`raise resp`,
queue.py line 132) instead of skipping `0a1` and continuing with `0b2`. -/
theorem resolver_error_aborts_scan_counterexample :
    (MessageQueue.claimNext
        (withHeadFault ⟨"a", some ".queue-q", some ("0a1" ++ "/deleted")⟩ 500 objStoreApp)
        50 2 "a" ".queue-q" storeTwo).1 = .error (.raised ⟨500, .empty⟩) := rfl

/-- C8 (amended).  A resolver error on a single candidate message (the HEAD on
its `deleted` marker returning any status that is neither 2xx nor 404) aborts
the whole scan: `is_deleted` re-raises the response and the error surfaces to
the caller, with later candidates never examined.  A failure of the container
listing itself (any status other than 2xx or 204) likewise aborts the scan,
surfacing `Exception('Error querying object server')`. -/
theorem resolver_error_aborts_scan (s : Nat) (h2 : is2xx s = false) (h4 : s ≠ 404) :
    (MessageQueue.claimNext
        (withHeadFault ⟨"a", some ".queue-q", some ("0a1" ++ "/deleted")⟩ s objStoreApp)
        50 2 "a" ".queue-q" storeTwo).1 = .error (.raised ⟨s, .empty⟩) ∧
    (∀ s' : Nat, is2xx s' = false → s' ≠ 204 →
      (MessageQueue.claimNext (constApp s') 50 2 "a" ".queue-q" ()).1 =
        .error (.exc "Error querying object server")) := by
  constructor
  · have hdel : MessageQueue.is_deleted
        (withHeadFault ⟨"a", some ".queue-q", some ("0a1" ++ "/deleted")⟩ s objStoreApp)
        "a" ".queue-q" "0a1" storeTwo = (.error (.raised ⟨s, .empty⟩), storeTwo) := by
      unfold MessageQueue.is_deleted withHeadFault
      simp [h2, h4]
    have hlist : MessageQueue.list_container
        (withHeadFault ⟨"a", some ".queue-q", some ("0a1" ++ "/deleted")⟩ s objStoreApp)
        "a" ".queue-q" none storeTwo = (.ok [⟨"0a1/msg"⟩, ⟨"0b2/msg"⟩], storeTwo) := by
      unfold MessageQueue.list_container withHeadFault
      simp [objStoreApp]
      rfl
    unfold MessageQueue.claimNext
    rw [hlist]
    unfold MessageQueue.claimNextPages
    have hpage : MessageQueue.pageYield [⟨"0a1/msg"⟩, ⟨"0b2/msg"⟩] false none =
        [("0a1", none), ("0b2", none)] := rfl
    rw [hpage]
    unfold MessageQueue.scanPairs
    rw [hdel]
  · intro s' h2' h4'
    have hcond : s' < 200 ∨ s' ≥ 300 := by
      simp [is2xx] at h2'
      omega
    unfold MessageQueue.claimNext MessageQueue.list_container constApp
    simp [h4', hcond]

/-- Witness for C8 at the fault status 500 (scan abort) and listing status 507
(listing abort). -/
theorem resolver_error_aborts_scan_witness :
    is2xx 500 = false ∧ (500 : Nat) ≠ 404 ∧
    (MessageQueue.claimNext
        (withHeadFault ⟨"a", some ".queue-q", some ("0a1" ++ "/deleted")⟩ 500 objStoreApp)
        50 2 "a" ".queue-q" storeTwo).1 = .error (.raised ⟨500, .empty⟩) ∧
    (MessageQueue.claimNext (constApp 507) 50 2 "a" ".queue-q" ()).1 =
      .error (.exc "Error querying object server") :=
  ⟨rfl, by decide,
    (resolver_error_aborts_scan 500 rfl (by decide)).1,
    (resolver_error_aborts_scan 500 rfl (by decide)).2 507 rfl (by decide)⟩

/-! ## C9: list-queues never produces queue names -/

/-- C9. A list-queues request (GET on `/queue/<account>` with no queue
segment) never returns the prefix-stripped container names.  It crashes twice
over: (1) at dispatch, `container = self.prefix + queue` (queue.py line 47)
raises `TypeError` because `queue` is `None` for a two-segment path, so the
listing branch is unreachable from a request; (2) the listing branch itself
(lines 91-104), exercised directly against a store whose account listing holds
one container `.queue-q1`, raises `AttributeError` at
`o.startswith(self.prefix)` (line 99) because `o` is a listing dict, not a
string — and even with `o['name']`, `lstrip(self.prefix)` would strip a
character set rather than the prefix. -/
theorem list_queues_crashes :
    (callMw objStoreApp ".queue-" ⟨"abc", 0⟩ 0 0 2 "GET" "queue" (some "a")
        none none .empty storeQueues).1.1 =
      .error (.typeError "cannot concatenate str and NoneType") ∧
    (MessageQueue.listQueues objStoreApp ".queue-" "a" storeQueues).1 =
      .error (.attrError "dict object has no attribute startswith") :=
  ⟨rfl, rfl⟩

/-! ## C10: unknown HTTP methods are rejected without touching the store -/

/-- Counterexample to C10 as stated: the claim covers "any method other than
GET, POST, or DELETE", but dispatch is `getattr`-based (queue.py line 41), so
a request whose method names a non-handler attribute of the middleware — here
`generate_id` — is not answered with `HTTPPreconditionFailed`: `getattr`
succeeds and the call `handler(req, account, container, message)` raises
`TypeError` instead. -/
theorem bad_method_claim_counterexample :
    (callMw objStoreApp ".queue-" ⟨"abc", 0⟩ 0 0 2 "generate_id" "queue" (some "a")
        (some "q") none .empty storeAvail).1.1 =
      .error (.typeError "not callable or wrong number of arguments") ∧
    (Except.error (.typeError "not callable or wrong number of arguments") :
        Except PyErr MwOut) ≠ .ok (.resp HTTPPreconditionFailedResp) :=
  ⟨rfl, by simp⟩

/-- C10 (amended).  For every request routed into the queue namespace (first
path segment `queue` with a non-empty account) whose method is not the name
of *any* attribute of the middleware object (`mqAttrs`: the class-declared
methods including `__init__` and `__call__`, the instance attributes, and the
attributes inherited from `object`) — in particular `PUT` and `HEAD` — the
middleware answers `HTTPPreconditionFailed` with body `'Bad HTTP method'`.
The equation holds for every backing application `app` and every store state
`st`, and returns `st` unchanged, so no read or write against the backing
store is performed.  Methods that do name a non-handler attribute (such as
`generate_id`) instead raise `TypeError`, as the counterexample above
shows. -/
theorem bad_method_precondition_failed {σ : Type} (app : App σ) (st : σ)
    (pfx : String) (u : SortableUid) (now : Int) (timeMs fuel : Nat)
    (method : String) (a : String) (queue message : Option String) (body : Body)
    (hm : mqAttrs.contains method = false) (ha : a.isEmpty = false) :
    callMw app pfx u now timeMs fuel method "queue" (some a) queue message body st =
      ((.ok (.resp HTTPPreconditionFailedResp), st), u) := by
  unfold callMw
  have hmem : method ∉ mqAttrs := by simpa using hm
  simp [hmem, ha]

/-- Witness for C10 with method `PUT` against the concrete object store. -/
theorem bad_method_precondition_failed_witness :
    mqAttrs.contains "PUT" = false ∧ "a".isEmpty = false ∧
    callMw objStoreApp ".queue-" ⟨"abc", 0⟩ 0 0 2 "PUT" "queue" (some "a")
        (some "q") none .empty storeAvail =
      ((.ok (.resp HTTPPreconditionFailedResp), storeAvail), ⟨"abc", 0⟩) :=
  ⟨rfl, rfl,
    bad_method_precondition_failed objStoreApp storeAvail ".queue-" ⟨"abc", 0⟩ 0 0 2
      "PUT" "a" (some "q") none .empty rfl rfl⟩
